import Mathlib

/-!
Verification development for the quota-gated registration pipeline
(`data_collector` module and the stream `active_learning_sink`).

The `data_collector` module itself is not part of the checked-in sources
(only its unit tests are), so its functions are modelled from the
specification, with the concrete strings and shapes pinned by the unit
tests.  `active_learning_sink` is translated directly from
`inference/core/interfaces/stream/sinks.py`.

Conventions of the shallow embedding:
* geometric coordinates are `Rat` (Python floats at exact binary values in
  the tests);
* the polymorphic Python prediction (`None` / dict / `sv.Detections`) is a
  closed tagged union `Prediction`;
* effectful collaborators (remote API, mocked `register_datapoint`) are
  explicit functional parameters, and side effects (annotation calls,
  `return_strategy_credit` calls, background tasks) are recorded in
  explicit traces, so that "called exactly once" style facts are statable.
-/

namespace DataCollector

/-- Modelled from the spec (§3 Data model, §4.3): one detection of an
`sv.Detections` set, with corner coordinates `x1 y1 x2 y2`, confidence,
class id/name, detection id, parent id and the recorded parent-image
dimensions (height, width) — the tests store `parent_dimensions` rows as
`[height, width]`. -/
structure Detection where
  x1 : Rat
  y1 : Rat
  x2 : Rat
  y2 : Rat
  confidence : Rat
  class_id : Int
  class_name : String
  detection_id : String
  parent_id : String
  parent_height : Nat
  parent_width : Nat
deriving DecidableEq, Repr

/-- Modelled from the spec (§3, §9): the polymorphic prediction decoded as a
closed tagged union.  A Python dict is abstracted by whether it carries a
`top` value and whether it has a `predictions` key; an `sv.Detections`
value is a list of detections; `absent` is Python `None`. -/
inductive Prediction where
  | absent : Prediction
  | dict (top : Option String) (has_predictions_key : Bool) : Prediction
  | detections (ds : List Detection) : Prediction
deriving DecidableEq, Repr

/-- Modelled from the spec (§4.3): registrability predicate — true when the
prediction is absent, an empty detection set, or a dict lacking the
classification shape (`top` + `predictions` keys). -/
def is_prediction_registration_forbidden : Prediction → Bool
  | .absent => true
  | .dict top has_preds => !(top.isSome && has_preds)
  | .detections ds => ds.isEmpty

/-- One serialized entry of the detections payload, with a center-based box. -/
structure EncodedDetection where
  x : Rat
  y : Rat
  width : Rat
  height : Rat
  confidence : Rat
  class_id : Int
  class_name : String
  detection_id : String
  parent_id : String
deriving DecidableEq, Repr

/-- The JSON object produced for a detection set: parent-image dimensions
plus one encoded entry per detection. -/
structure DetectionsPayload where
  image_width : Nat
  image_height : Nat
  predictions : List EncodedDetection
deriving DecidableEq, Repr

/-- A transmittable payload: plain text or structured JSON. -/
inductive Payload where
  | txt (s : String) : Payload
  | json (p : DetectionsPayload) : Payload
deriving DecidableEq, Repr

/-- Modelled from the spec (§4.3): center-based box derived from corner
coordinates: `width = x2-x1`, `height = y2-y1`, `x = x1+width/2`,
`y = y1+height/2`, carrying over the remaining fields. -/
def encodeDetection (d : Detection) : EncodedDetection :=
  { x := d.x1 + (d.x2 - d.x1) / 2
    y := d.y1 + (d.y2 - d.y1) / 2
    width := d.x2 - d.x1
    height := d.y2 - d.y1
    confidence := d.confidence
    class_id := d.class_id
    class_name := d.class_name
    detection_id := d.detection_id
    parent_id := d.parent_id }

/-- Modelled from the spec (§4.3): `encode(prediction) -> (payload, format)`.
Classification-shaped dicts give the top class with format `"txt"`;
detection sets give the JSON payload with image dimensions taken from the
detections' recorded parent-image dimensions and format `"json"`; any
other shape is unencodable (`none`). -/
def encode_prediction : Prediction → Option (Payload × String)
  | .dict (some top) true => some (.txt top, "txt")
  | .dict _ _ => none
  | .absent => none
  | .detections [] => none
  | .detections (d :: rest) =>
      some (.json { image_width := d.parent_width
                    image_height := d.parent_height
                    predictions := (d :: rest).map encodeDetection }, "json")

/-- A calendar date (proleptic Gregorian). -/
structure Date where
  year : Nat
  month : Nat
  day : Nat
deriving DecidableEq, Repr

def isLeapYear (y : Nat) : Bool :=
  (y % 4 == 0 && y % 100 != 0) || y % 400 == 0

def daysInMonth (y m : Nat) : Nat :=
  if m == 2 then (if isLeapYear y then 29 else 28)
  else if m == 4 || m == 6 || m == 9 || m == 11 then 30
  else 31

def daysBeforeMonth (y m : Nat) : Nat :=
  (List.range (m - 1)).foldl (fun acc i => acc + daysInMonth y (i + 1)) 0

/-- Day number in the proleptic Gregorian calendar (0001-01-01 is day 1,
a Monday). -/
def rataDie (dt : Date) : Nat :=
  365 * (dt.year - 1) + (dt.year - 1) / 4 - (dt.year - 1) / 100
    + (dt.year - 1) / 400 + daysBeforeMonth dt.year dt.month + dt.day

/-- Monday-based weekday index, as Python's `date.weekday()` (0 = Monday). -/
def weekday (dt : Date) : Nat := (rataDie dt - 1) % 7

def predDate (dt : Date) : Date :=
  if dt.day > 1 then { dt with day := dt.day - 1 }
  else if dt.month > 1 then
    { year := dt.year, month := dt.month - 1, day := daysInMonth dt.year (dt.month - 1) }
  else { year := dt.year - 1, month := 12, day := 31 }

def subDays : Date → Nat → Date
  | dt, 0 => dt
  | dt, Nat.succ n => subDays (predDate dt) n

/-- Left-pads the decimal representation of `n` with zeros to width `w`. -/
def padNat (w n : Nat) : String :=
  let s := toString n
  String.mk (List.replicate (w - s.length) '0') ++ s

/-- Zero-padded ISO components joined by underscore: `YYYY_MM_DD`. -/
def formatDate (dt : Date) : String :=
  padNat 4 dt.year ++ "_" ++ padNat 2 dt.month ++ "_" ++ padNat 2 dt.day

/-- Batch-name rotation frequency. -/
inductive BatchCreationFrequency where
  | never : BatchCreationFrequency
  | daily : BatchCreationFrequency
  | weekly : BatchCreationFrequency
  | monthly : BatchCreationFrequency
deriving DecidableEq, Repr

/-- Modelled from the spec (§4.2 BatchNamer): pure function of the batch
name root, the rotation frequency and the (injected) current date. -/
def generate_batch_name (pref : String) (freq : BatchCreationFrequency)
    (today : Date) : String :=
  match freq with
  | .never => pref
  | .daily => pref ++ "_" ++ formatDate today
  | .weekly => pref ++ "_" ++ formatDate (subDays today (weekday today))
  | .monthly => pref ++ "_" ++ formatDate { today with day := 1 }

/-- An image: only the dimensions matter to the registration logic. -/
structure Image where
  width : Nat
  height : Nat
deriving DecidableEq, Repr

/-- Scales one detection's corner coordinates by independent per-axis
ratios. -/
def rescale_detection (x_ratio y_ratio : Rat) (d : Detection) : Detection :=
  { d with
    x1 := d.x1 * x_ratio
    x2 := d.x2 * x_ratio
    y1 := d.y1 * y_ratio
    y2 := d.y2 * y_ratio }

/-- Modelled from the spec (§4.3 Rescaling): scales all geometric fields of
a detection set by independent x/y ratios `target/original` per axis.
Sizes are `(width, height)` pairs. -/
def rescale (ds : List Detection) (original_size target_size : Nat × Nat) :
    List Detection :=
  ds.map (rescale_detection
    ((target_size.1 : Rat) / (original_size.1 : Rat))
    ((target_size.2 : Rat) / (original_size.2 : Rat)))

/-- Modelled from the spec (§4.6 step 3): aspect-preserving downscale of an
image so it fits within the `(max_width, max_height)` cap; an image that
already fits is left unchanged. -/
def fit_within (img : Image) (cap : Nat × Nat) : Nat × Nat :=
  if img.width ≤ cap.1 && img.height ≤ cap.2 then (img.width, img.height)
  else if cap.1 * img.height ≤ cap.2 * img.width then
    (cap.1, img.height * cap.1 / img.width)
  else
    (img.width * cap.2 / img.height, cap.2)

/-- Modelled from the spec (§4.6 step 3): the prediction forwarded to the
registration call — detection geometry is rescaled to match the resized
image, other prediction shapes pass through unchanged. -/
def rescaled_for_registration (img : Image) (cap : Nat × Nat) :
    Prediction → Prediction
  | .detections ds =>
      .detections (rescale ds (img.width, img.height) (fit_within img cap))
  | p => p

/-- `QuotaKey`: one logical rate-limited resource. -/
structure QuotaKey where
  workspace : String
  project : String
  quota_name : String
deriving DecidableEq, Repr

/-- Rolling usage counters of the three windows for one `QuotaKey`. -/
structure WindowUsage where
  minute_usage : Nat
  hour_usage : Nat
  day_usage : Nat
deriving DecidableEq, Repr

abbrev Ledger := List (QuotaKey × WindowUsage)

def Ledger.lookup (ledger : Ledger) (key : QuotaKey) : WindowUsage :=
  match ledger.find? (fun e => decide (e.1 = key)) with
  | some e => e.2
  | none => ⟨0, 0, 0⟩

def Ledger.store (ledger : Ledger) (key : QuotaKey) (u : WindowUsage) : Ledger :=
  (key, u) :: ledger.filter (fun e => !(decide (e.1 = key)))

/-- Opaque token identifying the strategy that was debited. -/
structure CreditGrant where
  strategy_name : String
deriving DecidableEq, Repr

/-- Modelled from the spec (§4.4 QuotaLedger): grants credit only if all
three windows have remaining capacity, consuming capacity in all three
simultaneously; the grant references the selected matching strategy (the
named quota). Returns `none` with no side effect when any window is at or
above its ceiling. -/
def acquire (ledger : Ledger) (key : QuotaKey)
    (minutely_limit hourly_limit daily_limit : Nat) :
    Option (CreditGrant × Ledger) :=
  let u := Ledger.lookup ledger key
  if u.minute_usage < minutely_limit && u.hour_usage < hourly_limit
      && u.day_usage < daily_limit then
    some (⟨key.quota_name⟩,
      Ledger.store ledger key
        ⟨u.minute_usage + 1, u.hour_usage + 1, u.day_usage + 1⟩)
  else none

/-- Modelled from the spec (§4.4): reverses a previously successful
acquisition; counters never go below zero. -/
def return_strategy_credit (ledger : Ledger)
    (workspace project strategy_name : String) : Ledger :=
  let key : QuotaKey := ⟨workspace, project, strategy_name⟩
  let u := Ledger.lookup ledger key
  Ledger.store ledger key
    ⟨u.minute_usage - 1, u.hour_usage - 1, u.day_usage - 1⟩

abbrev Cache := List (String × String)

def Cache.get (c : Cache) (k : String) : Option String :=
  match c.find? (fun e => decide (e.1 = k)) with
  | some e => some e.2
  | none => none

def Cache.set (c : Cache) (k v : String) : Cache :=
  (k, v) :: c.filter (fun e => !(decide (e.1 = k)))

/-- Cache key derived from the credential.  The Python code uses an md5
digest of the key; the digest is not modelled, only that the cache key is a
function of the credential under a fixed namespace. -/
def workspace_cache_key (api_key : String) : String :=
  "workflows:api_key_to_workspace:" ++ api_key

/-- Modelled from the spec (§4.1 WorkspaceResolver): check the shared cache
under the hashed-credential key; on miss, call the external workspace
lookup (`remote_ws`), store the result, return it. -/
def get_workspace_name (api_key : String) (cache : Cache)
    (remote_ws : String → String) : String × Cache :=
  match Cache.get cache (workspace_cache_key api_key) with
  | some ws => (ws, cache)
  | none =>
      let ws := remote_ws api_key
      (ws, Cache.set cache (workspace_cache_key api_key) ws)

/-- Response of the remote register-image call. -/
structure RegisterImageResponse where
  duplicate : Bool
  backend_id : String
deriving DecidableEq, Repr

/-- One remote annotate-image call, as observed by the remote API. -/
structure AnnotationCall where
  annotation_content : Payload
  annotation_file_type : String
  is_prediction : Bool
deriving DecidableEq, Repr

/-- Modelled from the spec (§4.5 RegistrationOrchestrator): two-phase
registration.  A duplicate response stops with the duplicate outcome and no
annotation call; a forbidden prediction stops with the image-only outcome;
otherwise the encoded prediction is sent to annotate-image marked as a
model prediction.  The register-image response is an explicit parameter
(the remote call is mocked in the unit tests); the returned list records
the annotate-image calls made. -/
def register_datapoint (prediction : Prediction)
    (register_response : RegisterImageResponse) :
    String × List AnnotationCall :=
  if register_response.duplicate then
    ("Duplicated image", [])
  else if is_prediction_registration_forbidden prediction then
    ("Successfully registered image", [])
  else
    match encode_prediction prediction with
    | some (payload, fmt) =>
        ("Successfully registered image and annotation",
          [{ annotation_content := payload
             annotation_file_type := fmt
             is_prediction := true }])
    | none => ("Successfully registered image", [])

/-- Observable side effects of one `execute_registration` call. -/
structure ExecTrace where
  register_datapoint_predictions : List Prediction
  return_credit_calls : List (String × String × String)
deriving DecidableEq, Repr

/-- Full result of one `execute_registration` call: the `(is_error,
message)` outcome, the updated ledger and cache, and the side-effect
trace. -/
structure ExecResultState where
  outcome : Bool × String
  ledger : Ledger
  cache : Cache
  trace : ExecTrace
deriving DecidableEq, Repr

/-- Modelled from the spec (§4.6): per-element orchestration.  Resolve the
workspace, attempt `acquire` on `QuotaKey(workspace, project, quota_name)`;
on denial return the skipped-quota outcome with no error flag and no
registration attempt.  On a grant, resize/rescale and invoke the
registration (its result is the explicit `registration_result` parameter:
`Except.error e` models `register_datapoint` raising with message `e`).  On
an exception, return the credit and mark the outcome as an error with the
exception message; no exception propagates (the function is total).  On
success the credit is consumed. -/
def execute_registration (img : Image) (prediction : Prediction)
    (target_project usage_quota_name : String)
    (minutely_usage_limit hourly_usage_limit daily_usage_limit : Nat)
    (max_image_size : Nat × Nat)
    (cache : Cache) (api_key : String) (ledger : Ledger)
    (remote_ws : String → String)
    (registration_result : Except String String) : ExecResultState :=
  match acquire ledger
      ⟨(get_workspace_name api_key cache remote_ws).1, target_project,
        usage_quota_name⟩
      minutely_usage_limit hourly_usage_limit daily_usage_limit with
  | none =>
      { outcome := (false, "Registration skipped due to usage quota exceeded")
        ledger := ledger
        cache := (get_workspace_name api_key cache remote_ws).2
        trace := { register_datapoint_predictions := []
                   return_credit_calls := [] } }
  | some (grant, ledger2) =>
      match registration_result with
      | .ok msg =>
          { outcome := (false, msg)
            ledger := ledger2
            cache := (get_workspace_name api_key cache remote_ws).2
            trace := { register_datapoint_predictions :=
                         [rescaled_for_registration img max_image_size prediction]
                       return_credit_calls := [] } }
      | .error e =>
          { outcome := (true, e)
            ledger := return_strategy_credit ledger2
              (get_workspace_name api_key cache remote_ws).1 target_project
              grant.strategy_name
            cache := (get_workspace_name api_key cache remote_ws).2
            trace := { register_datapoint_predictions :=
                         [rescaled_for_registration img max_image_size prediction]
                       return_credit_calls :=
                         [((get_workspace_name api_key cache remote_ws).1,
                           target_project, grant.strategy_name)] } }

/-- One `{error_status, message}` record reported to the workflow engine. -/
structure StatusRecord where
  error_status : Bool
  message : String
deriving DecidableEq, Repr

def disabledRecord : StatusRecord :=
  ⟨false, "Sink was disabled by parameter `disable_sink`"⟩

def skippedRecord : StatusRecord :=
  ⟨false, "Batch element skipped"⟩

def backgroundRecord : StatusRecord :=
  ⟨false, "Element registration happens in the background task"⟩

/-- Aggregate result of a batch run: the per-element records, the number of
background tasks enqueued, and the elements forwarded to the inline
registration (in order). -/
structure RunOutput where
  results : List StatusRecord
  background_tasks_added : Nat
  inline_exec_calls : List (Image × Prediction)
deriving Repr

/-- Modelled from the spec (§4.7): the per-element loop.  An absent image
slot yields the skipped record and is never dispatched; in fire-and-forget
mode (`ff = true`) an eligible element enqueues one background task and
yields the optimistic record; otherwise the element's real `(is_error,
message)` outcome (the `exec_outcome` parameter stands for
`execute_registration`) is reported. -/
def run_elements (ff : Bool) (exec_outcome : Image → Prediction → Bool × String) :
    List (Option Image × Prediction) → RunOutput
  | [] => ⟨[], 0, []⟩
  | (none, _) :: rest =>
      let r := run_elements ff exec_outcome rest
      ⟨skippedRecord :: r.results, r.background_tasks_added, r.inline_exec_calls⟩
  | (some img, pred) :: rest =>
      let r := run_elements ff exec_outcome rest
      if ff then
        ⟨backgroundRecord :: r.results, r.background_tasks_added + 1,
          r.inline_exec_calls⟩
      else
        ⟨⟨(exec_outcome img pred).1, (exec_outcome img pred).2⟩ :: r.results,
          r.background_tasks_added, (img, pred) :: r.inline_exec_calls⟩

/-- Modelled from the spec (§4.7 ExecutionModeRouter): a missing API key is
fatal and raises before any batch processing (`Except.error`); a disabled
sink short-circuits every element before quota/registration;
otherwise elements are processed in order, fire-and-forget mode being
active when the flag is set and a background task queue was provided. -/
def run_locally (api_key : Option String) (background_tasks_provided : Bool)
    (images : List (Option Image)) (predictions : List Prediction)
    (disable_sink fire_and_forget : Bool)
    (exec_outcome : Image → Prediction → Bool × String) :
    Except String RunOutput :=
  match api_key with
  | none =>
      Except.error
        "RoboflowDataCollector block cannot run without Roboflow API key"
  | some _ =>
      if disable_sink then
        Except.ok
          { results := images.map (fun _ => disabledRecord)
            background_tasks_added := 0
            inline_exec_calls := [] }
      else
        Except.ok
          (run_elements (fire_and_forget && background_tasks_provided)
            exec_outcome (images.zip predictions))

/-- A video frame of the stream interface; only the carried image matters
to `active_learning_sink`. -/
structure VideoFrame (α : Type) where
  image : α
deriving DecidableEq, Repr

/-- The arguments forwarded to `ActiveLearningMiddleware.register_batch`. -/
structure RegisterBatchCall (α β : Type) where
  inference_inputs : List α
  predictions : List β
deriving DecidableEq, Repr

/-- Translated from `inference/core/interfaces/stream/sinks.py`
(`active_learning_sink`, list branch): the images of the non-`None` video
frames and the non-`None` predictions are each filtered independently and
forwarded to `register_batch`. -/
def active_learning_sink {α β : Type} (predictions : List (Option β))
    (video_frame : List (Option (VideoFrame α))) : RegisterBatchCall α β :=
  { inference_inputs := (video_frame.filterMap id).map VideoFrame.image
    predictions := predictions.filterMap id }

/-! Concrete fixtures mirroring the unit-test inputs. -/

/-- Detection `xyxy = [1,1,2,2]` of the encoding unit test, parent image
192×168 (height×width). -/
def c7_d1 : Detection :=
  { x1 := 1, y1 := 1, x2 := 2, y2 := 2, confidence := 1/10, class_id := 1
    class_name := "cat", detection_id := "first", parent_id := "image"
    parent_height := 192, parent_width := 168 }

/-- Detection `xyxy = [3,3,4,4]` of the encoding unit test. -/
def c7_d2 : Detection :=
  { x1 := 3, y1 := 3, x2 := 4, y2 := 4, confidence := 9/10, class_id := 2
    class_name := "dog", detection_id := "second", parent_id := "image"
    parent_height := 192, parent_width := 168 }

/-- The 256-wide, 128-high image of the successful-registration unit test
(`np.zeros((128, 256, 3))`). -/
def c3_image : Image := { width := 256, height := 128 }

/-- Detection `xyxy = [2,2,4,4]` of the successful-registration unit test. -/
def c3_d1 : Detection :=
  { x1 := 2, y1 := 2, x2 := 4, y2 := 4, confidence := 1/10, class_id := 1
    class_name := "cat", detection_id := "first", parent_id := "image"
    parent_height := 128, parent_width := 128 }

/-- Detection `xyxy = [4,4,8,8]` of the successful-registration unit test. -/
def c3_d2 : Detection :=
  { x1 := 4, y1 := 4, x2 := 8, y2 := 8, confidence := 9/10, class_id := 2
    class_name := "dog", detection_id := "second", parent_id := "image"
    parent_height := 128, parent_width := 128 }

/-- `c3_d1` with both axes halved (`xyxy = [1,1,2,2]`), as the unit test
asserts for the prediction forwarded to the registration call. -/
def c3_d1_scaled : Detection :=
  { x1 := 1, y1 := 1, x2 := 2, y2 := 2, confidence := 1/10, class_id := 1
    class_name := "cat", detection_id := "first", parent_id := "image"
    parent_height := 128, parent_width := 128 }

/-- `c3_d2` with both axes halved (`xyxy = [2,2,4,4]`). -/
def c3_d2_scaled : Detection :=
  { x1 := 2, y1 := 2, x2 := 4, y2 := 4, confidence := 9/10, class_id := 2
    class_name := "dog", detection_id := "second", parent_id := "image"
    parent_height := 128, parent_width := 128 }

/-- A cache already holding the workspace name for `"my_api_key"`. -/
def test_cache : Cache := [(workspace_cache_key "my_api_key", "my_workspace")]

/-! Theorems settling the claims, preceded by helper lemmas about the
per-element batch loop. -/

theorem run_elements_ff_eq (exec_outcome : Image → Prediction → Bool × String)
    (l : List (Option Image × Prediction)) :
    run_elements true exec_outcome l
      = ⟨l.map (fun ip => if ip.1.isSome then backgroundRecord else skippedRecord),
         (l.filter (fun ip => ip.1.isSome)).length, []⟩ := by
  induction l with
  | nil => rfl
  | cons hd tl ih =>
      obtain ⟨io, pred⟩ := hd
      cases io <;> simp [run_elements, ih, List.filter_cons]

theorem run_elements_inline_eq
    (exec_outcome : Image → Prediction → Bool × String)
    (l : List (Option Image × Prediction)) :
    run_elements false exec_outcome l
      = ⟨l.map (fun ip =>
            match ip.1 with
            | none => skippedRecord
            | some img =>
                ⟨(exec_outcome img ip.2).1, (exec_outcome img ip.2).2⟩),
         0,
         l.filterMap (fun ip => ip.1.map (fun img => (img, ip.2)))⟩ := by
  induction l with
  | nil => rfl
  | cons hd tl ih =>
      obtain ⟨io, pred⟩ := hd
      cases io <;> simp [run_elements, ih, List.filterMap_cons]

theorem run_elements_results_length (ff : Bool)
    (exec_outcome : Image → Prediction → Bool × String)
    (l : List (Option Image × Prediction)) :
    (run_elements ff exec_outcome l).results.length = l.length := by
  induction l with
  | nil => rfl
  | cons hd tl ih =>
      obtain ⟨io, pred⟩ := hd
      cases io <;> cases ff <;> simp [run_elements, ih]

theorem run_elements_skip_at (ff : Bool)
    (exec_outcome : Image → Prediction → Bool × String) :
    ∀ (images : List (Option Image)) (preds : List Prediction) (i : Nat),
      images.length = preds.length →
      images.get? i = some none →
      (run_elements ff exec_outcome (images.zip preds)).results.get? i
        = some skippedRecord := by
  intro images
  induction images with
  | nil => intro preds i _ hi; simp at hi
  | cons hd tl ih =>
      intro preds i hlen hi
      cases preds with
      | nil => simp at hlen
      | cons p ptl =>
          cases i with
          | zero =>
              simp only [List.get?] at hi
              obtain rfl : hd = none := by injection hi
              simp [run_elements]
          | succ n =>
              simp only [List.get?] at hi
              have hlen' : tl.length = ptl.length := by
                simpa using hlen
              cases hd <;> cases ff <;>
                simpa [run_elements] using ih ptl n hlen' hi

theorem run_elements_inline_mem (ff : Bool)
    (exec_outcome : Image → Prediction → Bool × String)
    (l : List (Option Image × Prediction)) (img : Image) (pred : Prediction) :
    (img, pred) ∈ (run_elements ff exec_outcome l).inline_exec_calls →
      (some img, pred) ∈ l := by
  induction l with
  | nil => intro h; simp [run_elements] at h
  | cons hd tl ih =>
      obtain ⟨io, q⟩ := hd
      intro h
      cases io with
      | none =>
          simp only [run_elements] at h
          exact List.mem_cons_of_mem _ (ih h)
      | some img2 =>
          cases ff with
          | true =>
              simp only [run_elements, if_pos] at h
              exact List.mem_cons_of_mem _ (ih h)
          | false =>
              simp only [run_elements, if_neg] at h
              rcases List.mem_cons.mp h with h1 | h2
              · rw [Prod.ext_iff] at h1
                obtain ⟨h1a, h1b⟩ := h1
                simp only at h1a h1b
                subst h1a; subst h1b
                exact List.mem_cons_self _ _
              · exact List.mem_cons_of_mem _ (ih h2)

/-- Claim C8: `generate_batch_name` is a pure function of
`(prefix, frequency, today)`: the `never` frequency returns the root
unchanged for every date; `daily` appends the zero-padded date as
`root_YYYY_MM_DD`; `weekly` appends the date of the Monday of the current
ISO week; `monthly` appends the first day of the current month; for
2024-05-28 and root `my_batch` the results are `my_batch`,
`my_batch_2024_05_28`, `my_batch_2024_05_27` and `my_batch_2024_05_01`. -/
theorem C8_generate_batch_name_spec :
    (∀ (p : String) (dt : Date), generate_batch_name p .never dt = p) ∧
    (∀ (p : String) (dt : Date),
       generate_batch_name p .daily dt = p ++ "_" ++ formatDate dt) ∧
    (∀ (p : String) (dt : Date),
       generate_batch_name p .weekly dt
         = p ++ "_" ++ formatDate (subDays dt (weekday dt))) ∧
    (∀ (p : String) (dt : Date),
       generate_batch_name p .monthly dt
         = p ++ "_" ++ formatDate ⟨dt.year, dt.month, 1⟩) ∧
    generate_batch_name "my_batch" .never ⟨2024, 5, 28⟩ = "my_batch" ∧
    generate_batch_name "my_batch" .daily ⟨2024, 5, 28⟩
      = "my_batch_2024_05_28" ∧
    generate_batch_name "my_batch" .weekly ⟨2024, 5, 28⟩
      = "my_batch_2024_05_27" ∧
    generate_batch_name "my_batch" .monthly ⟨2024, 5, 28⟩
      = "my_batch_2024_05_01" := by
  refine ⟨fun p dt => rfl, fun p dt => rfl, fun p dt => rfl, fun p dt => rfl,
    ?_, ?_, ?_, ?_⟩ <;> decide

/-- Claim C9: `is_prediction_registration_forbidden` is true exactly when
the prediction is absent, an empty detection set, or a dict lacking the
classification shape (both `top` and `predictions` keys); it is false for
every populated classification dict and every non-empty detection set. -/
theorem C9_is_forbidden_characterization (p : Prediction) :
    (is_prediction_registration_forbidden p = true ↔
      (p = .absent ∨ p = .detections [] ∨
        ∃ t k, p = .dict t k ∧ (t = none ∨ k = false))) ∧
    (∀ (t : String),
       is_prediction_registration_forbidden (.dict (some t) true) = false) ∧
    (∀ (d : Detection) (rest : List Detection),
       is_prediction_registration_forbidden (.detections (d :: rest))
         = false) := by
  refine ⟨?_, fun t => rfl, fun d rest => rfl⟩
  cases p with
  | absent => simp [is_prediction_registration_forbidden]
  | dict t k =>
      cases t <;> cases k <;>
        simp [is_prediction_registration_forbidden]
  | detections ds =>
      cases ds <;> simp [is_prediction_registration_forbidden]

/-- Claim C10: `active_learning_sink` filters its two input lists
independently before forwarding — it passes to `register_batch` exactly the
images of the non-`None` video frames in input order and exactly the
non-`None` predictions in input order; for the batch whose first frame is
`None` while its first prediction is not, the two forwarded lists have
different lengths, so images pair with predictions of other batch
positions. -/
theorem C10_active_learning_sink_independent_filtering :
    (∀ (α β : Type) (preds : List (Option β))
       (frames : List (Option (VideoFrame α))),
       (active_learning_sink preds frames).inference_inputs
           = (frames.filterMap id).map VideoFrame.image ∧
       (active_learning_sink preds frames).predictions
           = preds.filterMap id) ∧
    active_learning_sink [some 7, some 8]
        [none, some (VideoFrame.mk 10)]
      = { inference_inputs := [10], predictions := [7, 8] } ∧
    (active_learning_sink [some 7, some 8]
        ([none, some (VideoFrame.mk 10)] :
          List (Option (VideoFrame Nat)))).inference_inputs.length
      ≠ (active_learning_sink [some 7, some 8]
          ([none, some (VideoFrame.mk 10)] :
            List (Option (VideoFrame Nat)))).predictions.length := by
  exact ⟨fun α β preds frames => ⟨rfl, rfl⟩, rfl, by decide⟩

/-- Claim C7: `encode_prediction` returns, for every classification-shaped
input, the pair (top class label, `"txt"`); and for every non-empty
detection-set input, the pair (JSON payload, `"json"`) whose payload takes
`image.width/height` from the detections' recorded parent-image dimensions
and holds one entry per detection with center-based box
`width = x2-x1`, `height = y2-y1`, `x = x1+width/2`, `y = y1+height/2`,
plus confidence, class id, class name, detection id and parent id; at the
unit test's two detections the encoded boxes are `(1.5, 1.5, 1, 1)` and
`(3.5, 3.5, 1, 1)` under image dimensions 168×192. -/
theorem C7_encode_prediction_spec :
    (∀ (t : String),
       encode_prediction (.dict (some t) true) = some (.txt t, "txt")) ∧
    (∀ (d : Detection) (rest : List Detection),
       encode_prediction (.detections (d :: rest))
         = some (.json { image_width := d.parent_width
                         image_height := d.parent_height
                         predictions := (d :: rest).map encodeDetection },
                 "json")) ∧
    (∀ (d : Detection),
       encodeDetection d
         = { x := d.x1 + (d.x2 - d.x1) / 2
             y := d.y1 + (d.y2 - d.y1) / 2
             width := d.x2 - d.x1
             height := d.y2 - d.y1
             confidence := d.confidence
             class_id := d.class_id
             class_name := d.class_name
             detection_id := d.detection_id
             parent_id := d.parent_id }) ∧
    encode_prediction (.detections [c7_d1, c7_d2])
      = some (.json { image_width := 168
                      image_height := 192
                      predictions :=
                        [⟨3/2, 3/2, 1, 1, 1/10, 1, "cat", "first", "image"⟩,
                         ⟨7/2, 7/2, 1, 1, 9/10, 2, "dog", "second", "image"⟩] },
              "json") := by
  refine ⟨fun t => rfl, fun d rest => rfl, fun d => rfl, ?_⟩
  simp only [encode_prediction, encodeDetection, c7_d1, c7_d2, List.map]
  norm_num

/-- Claim C1: for every batch element whose quota credit was successfully
acquired, if the registration call raises any exception (modelled by
`Except.error e`), `execute_registration` returns an error outcome
(`is_error = true`) carrying the exception message, calls
`return_strategy_credit` exactly once for the acquired strategy on that
`(workspace, project)`, and propagates no exception to the batch driver
(the embedding is a total function into `ExecResultState`). -/
theorem C1_execute_registration_error_rolls_back
    (img : Image) (prediction : Prediction)
    (target_project usage_quota_name : String)
    (ml hl dl : Nat) (cap : Nat × Nat)
    (cache : Cache) (api_key : String) (ledger : Ledger)
    (remote_ws : String → String) (e : String)
    (grant : CreditGrant) (ledger2 : Ledger)
    (hacq : acquire ledger
        ⟨(get_workspace_name api_key cache remote_ws).1, target_project,
          usage_quota_name⟩ ml hl dl = some (grant, ledger2)) :
    (execute_registration img prediction target_project usage_quota_name
        ml hl dl cap cache api_key ledger remote_ws
        (Except.error e)).outcome = (true, e) ∧
    (execute_registration img prediction target_project usage_quota_name
        ml hl dl cap cache api_key ledger remote_ws
        (Except.error e)).trace.return_credit_calls
      = [((get_workspace_name api_key cache remote_ws).1, target_project,
          grant.strategy_name)] ∧
    (execute_registration img prediction target_project usage_quota_name
        ml hl dl cap cache api_key ledger remote_ws
        (Except.error e)).ledger
      = return_strategy_credit ledger2
          (get_workspace_name api_key cache remote_ws).1 target_project
          grant.strategy_name := by
  unfold execute_registration
  rw [hacq]
  exact ⟨rfl, rfl, rfl⟩

/-- Witness for C1 at the unit test's concrete input: the cached workspace
is `my_workspace`, the empty ledger grants credit under limits 10/100/1000,
and a failing registration (`"boom"`) yields the error outcome and exactly
one credit return for `(my_workspace, my_project)`. -/
theorem C1_witness :
    (execute_registration c3_image .absent "my_project" "my_quota"
        10 100 1000 (128, 64) test_cache "my_api_key" []
        (fun _ => "remote") (Except.error "boom")).outcome = (true, "boom") ∧
    (execute_registration c3_image .absent "my_project" "my_quota"
        10 100 1000 (128, 64) test_cache "my_api_key" []
        (fun _ => "remote") (Except.error "boom")).trace.return_credit_calls
      = [("my_workspace", "my_project", "my_quota")] ∧
    (execute_registration c3_image .absent "my_project" "my_quota"
        10 100 1000 (128, 64) test_cache "my_api_key" []
        (fun _ => "remote") (Except.error "boom")).ledger
      = return_strategy_credit
          [(⟨"my_workspace", "my_project", "my_quota"⟩, ⟨1, 1, 1⟩)]
          "my_workspace" "my_project" "my_quota" :=
  C1_execute_registration_error_rolls_back c3_image .absent "my_project"
    "my_quota" 10 100 1000 (128, 64) test_cache "my_api_key" []
    (fun _ => "remote") "boom" ⟨"my_quota"⟩
    [(⟨"my_workspace", "my_project", "my_quota"⟩, ⟨1, 1, 1⟩)] (by decide)

/-- Claim C2: for every batch element, if the quota credit acquisition on
`QuotaKey(workspace, project, quota_name)` is denied (`acquire` returns no
grant), `execute_registration` returns the skipped-quota outcome with the
error flag false and performs no registration attempt and no credit
return (for any behaviour of the registration call); the ledger is left
unchanged. -/
theorem C2_execute_registration_quota_denied
    (img : Image) (prediction : Prediction)
    (target_project usage_quota_name : String)
    (ml hl dl : Nat) (cap : Nat × Nat)
    (cache : Cache) (api_key : String) (ledger : Ledger)
    (remote_ws : String → String)
    (registration_result : Except String String)
    (hacq : acquire ledger
        ⟨(get_workspace_name api_key cache remote_ws).1, target_project,
          usage_quota_name⟩ ml hl dl = none) :
    (execute_registration img prediction target_project usage_quota_name
        ml hl dl cap cache api_key ledger remote_ws
        registration_result).outcome
      = (false, "Registration skipped due to usage quota exceeded") ∧
    (execute_registration img prediction target_project usage_quota_name
        ml hl dl cap cache api_key ledger remote_ws
        registration_result).trace.register_datapoint_predictions = [] ∧
    (execute_registration img prediction target_project usage_quota_name
        ml hl dl cap cache api_key ledger remote_ws
        registration_result).trace.return_credit_calls = [] ∧
    (execute_registration img prediction target_project usage_quota_name
        ml hl dl cap cache api_key ledger remote_ws
        registration_result).ledger = ledger := by
  unfold execute_registration
  rw [hacq]
  exact ⟨rfl, rfl, rfl, rfl⟩

/-- Witness for C2 at a concrete input: with every usage limit 0 the empty
ledger denies credit, the outcome is the skipped-quota record with the
error flag false, and no registration or credit return happens. -/
theorem C2_witness :
    (execute_registration c3_image .absent "my_project" "my_quota"
        0 0 0 (128, 64) test_cache "my_api_key" []
        (fun _ => "remote") (Except.ok "STATUS OK")).outcome
      = (false, "Registration skipped due to usage quota exceeded") ∧
    (execute_registration c3_image .absent "my_project" "my_quota"
        0 0 0 (128, 64) test_cache "my_api_key" []
        (fun _ => "remote")
        (Except.ok "STATUS OK")).trace.register_datapoint_predictions = [] ∧
    (execute_registration c3_image .absent "my_project" "my_quota"
        0 0 0 (128, 64) test_cache "my_api_key" []
        (fun _ => "remote")
        (Except.ok "STATUS OK")).trace.return_credit_calls = [] ∧
    (execute_registration c3_image .absent "my_project" "my_quota"
        0 0 0 (128, 64) test_cache "my_api_key" []
        (fun _ => "remote") (Except.ok "STATUS OK")).ledger = [] :=
  C2_execute_registration_quota_denied c3_image .absent "my_project"
    "my_quota" 0 0 0 (128, 64) test_cache "my_api_key" []
    (fun _ => "remote") (Except.ok "STATUS OK") (by decide)

/-- Counterexample to claim C3 as stated: at the unit test's input — a
detection with `xyxy = [2,2,4,4]` on the 128×256 image
(`np.zeros((128, 256, 3))`) submitted under the size cap `(128, 64)`, so
the image is resized to 128×64 — the prediction forwarded to the
registration call has its y-coordinates halved (`y1` becomes 1), not left
unchanged, because the aspect-preserving resize scales both axes by the
same ratio. -/
theorem C3_counterexample :
    (execute_registration c3_image (.detections [c3_d1, c3_d2]) "my_project"
        "my_quota" 10 100 1000 (128, 64) test_cache "my_api_key" []
        (fun _ => "remote")
        (Except.ok "STATUS OK")).trace.register_datapoint_predictions
      = [rescaled_for_registration c3_image (128, 64)
          (.detections [c3_d1, c3_d2])] ∧
    rescaled_for_registration c3_image (128, 64) (.detections [c3_d1, c3_d2])
      = .detections [c3_d1_scaled, c3_d2_scaled] ∧
    c3_d1_scaled.y1 ≠ c3_d1.y1 := by
  refine ⟨rfl, ?_, by norm_num [c3_d1_scaled, c3_d1]⟩
  simp only [rescaled_for_registration, rescale, rescale_detection,
    fit_within, c3_image, c3_d1, c3_d2, c3_d1_scaled, c3_d2_scaled, List.map]
  norm_num

/-- Claim C3 (amended): the rescale companion function scales the
geometric fields of a detection set by independent per-axis ratios
`target/original` before encoding; for a detection on a 128×256 image
resized (aspect-preserving, under the cap `(128, 64)`) to 128×64, both the
x-axis and the y-axis coordinates are halved. -/
theorem C3_rescale_amended :
    (∀ (ds : List Detection) (ow oh tw th : Nat),
       rescale ds (ow, oh) (tw, th)
         = ds.map (fun d =>
             { d with
               x1 := d.x1 * ((tw : Rat) / (ow : Rat))
               x2 := d.x2 * ((tw : Rat) / (ow : Rat))
               y1 := d.y1 * ((th : Rat) / (oh : Rat))
               y2 := d.y2 * ((th : Rat) / (oh : Rat)) })) ∧
    fit_within c3_image (128, 64) = (128, 64) ∧
    rescaled_for_registration c3_image (128, 64) (.detections [c3_d1, c3_d2])
      = .detections [c3_d1_scaled, c3_d2_scaled] ∧
    c3_d1_scaled.x1 = c3_d1.x1 / 2 ∧
    c3_d1_scaled.y1 = c3_d1.y1 / 2 := by
  refine ⟨fun ds ow oh tw th => rfl, by decide, ?_,
    by norm_num [c3_d1_scaled, c3_d1], by norm_num [c3_d1_scaled, c3_d1]⟩
  simp only [rescaled_for_registration, rescale, rescale_detection,
    fit_within, c3_image, c3_d1, c3_d2, c3_d1_scaled, c3_d2_scaled, List.map]
  norm_num

/-- Claim C6: `register_datapoint` classifies its outcome as follows: a
duplicate register-image response yields the duplicate outcome and no
annotation call; otherwise a forbidden prediction yields the
registered-image-only outcome without annotating; otherwise the prediction
is encoded and exactly one annotate-image call is made with the encoded
payload and format, marked as a model prediction, yielding the
registered-image-and-annotation outcome. -/
theorem C6_register_datapoint_outcomes (prediction : Prediction)
    (resp : RegisterImageResponse) :
    (resp.duplicate = true →
       register_datapoint prediction resp = ("Duplicated image", [])) ∧
    (resp.duplicate = false →
       is_prediction_registration_forbidden prediction = true →
       register_datapoint prediction resp
         = ("Successfully registered image", [])) ∧
    (resp.duplicate = false →
       is_prediction_registration_forbidden prediction = false →
       ∃ payload fmt, encode_prediction prediction = some (payload, fmt) ∧
         register_datapoint prediction resp
           = ("Successfully registered image and annotation",
              [{ annotation_content := payload
                 annotation_file_type := fmt
                 is_prediction := true }])) := by
  refine ⟨fun hdup => by simp [register_datapoint, hdup], ?_, ?_⟩
  · intro hdup hforb
    simp [register_datapoint, hdup, hforb]
  · intro hdup hforb
    cases prediction with
    | absent => simp [is_prediction_registration_forbidden] at hforb
    | dict t k =>
        cases t with
        | none => simp [is_prediction_registration_forbidden] at hforb
        | some a =>
            cases k with
            | false => simp [is_prediction_registration_forbidden] at hforb
            | true =>
                exact ⟨.txt a, "txt", rfl,
                  by simp [register_datapoint, hdup, hforb, encode_prediction]⟩
    | detections ds =>
        cases ds with
        | nil => simp [is_prediction_registration_forbidden] at hforb
        | cons d rest =>
            exact ⟨.json { image_width := d.parent_width
                           image_height := d.parent_height
                           predictions := (d :: rest).map encodeDetection },
              "json", rfl,
              by simp [register_datapoint, hdup, hforb, encode_prediction]⟩

/-- Witness for C6 at concrete inputs: a duplicate response on a detection
set, a non-duplicate response on an absent prediction, and a non-duplicate
response on the unit test's classification dict. -/
theorem C6_witness :
    register_datapoint (.detections [c7_d1]) ⟨true, "backend_id"⟩
      = ("Duplicated image", []) ∧
    register_datapoint .absent ⟨false, "backend_id"⟩
      = ("Successfully registered image", []) ∧
    (∃ payload fmt,
       encode_prediction (.dict (some "car") true) = some (payload, fmt) ∧
       register_datapoint (.dict (some "car") true) ⟨false, "backend_id"⟩
         = ("Successfully registered image and annotation",
            [{ annotation_content := payload
               annotation_file_type := fmt
               is_prediction := true }])) :=
  ⟨(C6_register_datapoint_outcomes (.detections [c7_d1])
      ⟨true, "backend_id"⟩).1 rfl,
   (C6_register_datapoint_outcomes .absent ⟨false, "backend_id"⟩).2.1 rfl rfl,
   (C6_register_datapoint_outcomes (.dict (some "car") true)
      ⟨false, "backend_id"⟩).2.2 rfl rfl⟩

/-- Claim C4: with a background task queue provided, when fire-and-forget
mode is on `run_locally` immediately reports the optimistic record
`{error_status: false, message: "Element registration happens in the
background task"}` for each eligible element (and the skipped record for
absent elements) and enqueues exactly one background task per eligible
element while invoking no inline registration; when fire-and-forget is off
it reports each eligible element's real `(is_error, message)` outcome from
the registration and enqueues zero background tasks even though the queue
was provided. -/
theorem C4_run_locally_modes (k : String)
    (images : List (Option Image)) (preds : List Prediction)
    (exec_outcome : Image → Prediction → Bool × String) :
    run_locally (some k) true images preds false true exec_outcome
      = Except.ok
          ⟨(images.zip preds).map
             (fun ip => if ip.1.isSome then backgroundRecord
                        else skippedRecord),
           ((images.zip preds).filter (fun ip => ip.1.isSome)).length, []⟩ ∧
    run_locally (some k) true images preds false false exec_outcome
      = Except.ok
          ⟨(images.zip preds).map
             (fun ip =>
               match ip.1 with
               | none => skippedRecord
               | some img =>
                   ⟨(exec_outcome img ip.2).1, (exec_outcome img ip.2).2⟩),
           0,
           (images.zip preds).filterMap
             (fun ip => ip.1.map (fun img => (img, ip.2)))⟩ := by
  constructor
  · simp [run_locally, run_elements_ff_eq]
  · simp [run_locally, run_elements_inline_eq]

/-- Claim C5: `run_locally` evaluates per-element states in order: a
missing API key raises (`Except.error`) before any batch processing;
otherwise a disabled sink yields the skipped-disabled record for every
element with no quota/registration activity and no background task; a
`None` image slot yields the skipped-element record and is never forwarded
to the registration; the returned record sequence has the same length (and
index-correspondence) as the input batch. -/
theorem C5_run_locally_states (k : String) (bg d ff : Bool)
    (images : List (Option Image)) (preds : List Prediction)
    (exec_outcome : Image → Prediction → Bool × String)
    (hlen : images.length = preds.length) :
    run_locally none bg images preds d ff exec_outcome
      = Except.error
          "RoboflowDataCollector block cannot run without Roboflow API key" ∧
    run_locally (some k) bg images preds true ff exec_outcome
      = Except.ok ⟨images.map (fun _ => disabledRecord), 0, []⟩ ∧
    (∀ out,
       run_locally (some k) bg images preds false ff exec_outcome
         = Except.ok out →
       out.results.length = images.length ∧
       (∀ i, images.get? i = some none →
          out.results.get? i = some skippedRecord) ∧
       (∀ img pred, (img, pred) ∈ out.inline_exec_calls →
          (some img, pred) ∈ images.zip preds)) := by
  refine ⟨rfl, rfl, ?_⟩
  intro out hout
  have hout' : out = run_elements (ff && bg) exec_outcome (images.zip preds) := by
    simpa [run_locally] using hout.symm
  subst hout'
  refine ⟨?_, ?_, ?_⟩
  · rw [run_elements_results_length]
    simp [List.length_zip, hlen]
  · intro i hi
    exact run_elements_skip_at (ff && bg) exec_outcome images preds i hlen hi
  · intro img pred hmem
    exact run_elements_inline_mem (ff && bg) exec_outcome
      (images.zip preds) img pred hmem

/-- Witness for C5 at a concrete batch: two elements, the first image slot
empty; the missing-key call errors, the disabled call yields the disabled
record twice, and the enabled call yields a first record equal to the
skipped record with nothing forwarded inline for that slot. -/
theorem C5_witness :
    run_locally none true [none, some ⟨4, 4⟩] [.absent, .absent] false true
        (fun _ _ => (false, "OK"))
      = Except.error
          "RoboflowDataCollector block cannot run without Roboflow API key" ∧
    run_locally (some "my_api_key") true [none, some ⟨4, 4⟩]
        [.absent, .absent] true true (fun _ _ => (false, "OK"))
      = Except.ok
          ({ results := [none, some (Image.mk 4 4)].map (fun _ => disabledRecord)
             background_tasks_added := 0
             inline_exec_calls := [] } : RunOutput) ∧
    (∀ out,
       run_locally (some "my_api_key") true [none, some ⟨4, 4⟩]
           [.absent, .absent] false true (fun _ _ => (false, "OK"))
         = Except.ok out →
       out.results.length = [none, some (Image.mk 4 4)].length ∧
       (∀ i, [none, some (Image.mk 4 4)].get? i = some none →
          out.results.get? i = some skippedRecord) ∧
       (∀ img pred, (img, pred) ∈ out.inline_exec_calls →
          (some img, pred) ∈
            [none, some (Image.mk 4 4)].zip
              [Prediction.absent, Prediction.absent])) :=
  C5_run_locally_states "my_api_key" true false true [none, some ⟨4, 4⟩]
    [.absent, .absent] (fun _ _ => (false, "OK")) (by decide)

end DataCollector
